import Mathlib

/-!
Shallow embedding of `pytorch_lightning/strategies/single_device.py`, the
`SingleDeviceStrategy` class: the execution strategy that handles
communication on a single device.

Modelling conventions:
- A `torch.device` becomes `TorchDevice` (a kind plus an optional index);
  the device-type strings compared against in the source (`"cuda"`, `"xla"`)
  become constructors of `DeviceType`.
- The mutable Python object becomes the state record `SingleDeviceStrategy`;
  each method becomes a Lean function on that record. Methods that return a
  value and write no attribute are pure functions of the state; methods that
  mutate attributes return an updated record.
- The external hardware queries `torch.cuda.is_available()` and
  `_XLA_AVAILABLE` are environment facts fixed for the lifetime of a strategy
  instance; they are carried as immutable fields of the record.
- The placement of the referenced model is the observable the claims are
  about, carried as `model_device` (`none` when no model has been bound).
  Relocation primitives of the tensor runtime (`Module.to`, `Module.cpu`)
  set it; `torch.cuda.empty_cache()` is recorded by `cuda_cache_empty`.
- A method that can raise a Python exception is embedded with result type
  `Except StrategyError _`; a method whose body cannot raise returns plainly.
- `setup_called` is a history marker recording whether `setup` has completed.
  No operation of the embedding reads it (the source performs no lifecycle
  check); it only lets theorems speak about the pre-setup state.
- The checkpoint and precision ports injected at construction are opaque
  collaborators never consulted by the operations embedded here; they are
  omitted from the state.
-/

/-- Kind of a torch device. The source compares the type string against
`"cuda"` and `"xla"`; `cpu` is host memory and `mps` stands for any further
accelerator kind. -/
inductive DeviceType
  | cpu
  | cuda
  | xla
  | mps
  deriving DecidableEq, BEq, Repr

/-- A torch device: a kind plus an optional index, mirroring `torch.device`. -/
structure TorchDevice where
  type : DeviceType
  index : Option Nat
  deriving DecidableEq, Repr

/-- The host device, the target of `Module.cpu()`. -/
def cpuDevice : TorchDevice := { type := DeviceType.cpu, index := none }

/-- An exception a strategy operation can raise to the caller. The only
raise reachable in the embedded methods is dereferencing an absent model
(`self.model` or `self.lightning_module` being `None`). -/
inductive StrategyError
  | noModelAttached
  deriving DecidableEq, Repr

/-- State of a `SingleDeviceStrategy` instance. -/
structure SingleDeviceStrategy where
  /-- The device passed to the constructor (`self.device`). -/
  device : TorchDevice
  /-- Set to `0` by the constructor. -/
  global_rank : Nat
  /-- Set to `0` by the constructor. -/
  local_rank : Nat
  /-- Set to `1` by the constructor. -/
  world_size : Nat
  /-- Placement of the model the strategy references; `none` when no model
  has been bound to the strategy. -/
  model_device : Option TorchDevice
  /-- The external query `torch.cuda.is_available()`, fixed for the lifetime
  of the instance. -/
  cuda_available : Bool
  /-- The external flag `_XLA_AVAILABLE`. -/
  xla_available : Bool
  /-- Whether the CUDA caching-allocator pool has been released by
  `torch.cuda.empty_cache()`. -/
  cuda_cache_empty : Bool
  /-- History marker: whether `setup` has completed. Read by no operation. -/
  setup_called : Bool
  deriving DecidableEq, Repr

namespace SingleDeviceStrategy

/-- `__init__`: stores the device and fixes the topology descriptor to
`global_rank = 0`, `local_rank = 0`, `world_size = 1`. The model is not yet
relocated (`model_device` records where the orchestrator-owned model, if one
is already bound, currently resides); the cache pool has not been released
and `setup` has not run. -/
def init (device : TorchDevice) (model_device : Option TorchDevice)
    (cuda_available xla_available : Bool) : SingleDeviceStrategy :=
  { device := device
    global_rank := 0
    local_rank := 0
    world_size := 1
    model_device := model_device
    cuda_available := cuda_available
    xla_available := xla_available
    cuda_cache_empty := false
    setup_called := false }

/-- `root_device` property: returns `self.device`. -/
def root_device (s : SingleDeviceStrategy) : TorchDevice := s.device

/-- `on_tpu` property: `self.root_device.type == "xla" and _XLA_AVAILABLE`.
The string comparison on the device-type tag is embedded as decidable
equality on `DeviceType`. -/
def on_tpu (s : SingleDeviceStrategy) : Bool :=
  decide (s.root_device.type = DeviceType.xla) && s.xla_available

/-- `on_gpu` property:
`self.root_device.type == "cuda" and torch.cuda.is_available()`.
The string comparison on the device-type tag is embedded as decidable
equality on `DeviceType`. -/
def on_gpu (s : SingleDeviceStrategy) : Bool :=
  decide (s.root_device.type = DeviceType.cuda) && s.cuda_available

/-- `reduce(tensor, *args, **kwargs)`: the body is `return tensor`; the
positional and keyword arguments are ignored and nothing in the body can
raise, so the result is always `Except.ok tensor`. -/
def reduce (s : SingleDeviceStrategy) (tensor : α) (args : β) (kwargs : γ) :
    Except StrategyError α :=
  Except.ok tensor

/-- `all_gather(tensor, group=None, sync_grads=False)`: the body is
`return tensor`. -/
def all_gather (s : SingleDeviceStrategy) (tensor : α) (group : Option β)
    (sync_grads : Bool) : α :=
  tensor

/-- `model_to_device()`: `self.model.to(self.root_device)`. Raises when no
model is bound (`self.model` is `None`); otherwise relocates the model onto
the root device. -/
def model_to_device (s : SingleDeviceStrategy) :
    Except StrategyError SingleDeviceStrategy :=
  match s.model_device with
  | none => Except.error StrategyError.noModelAttached
  | some _ => Except.ok { s with model_device := some s.root_device }

/-- Modelled from the spec: the base lifecycle hook `Strategy.setup`
(defined in `pytorch_lightning/strategies/strategy.py`, which is not part of
this excerpt) performs setup bookkeeping for the injected collaborators; per
the spec it binds the run context and alters neither the device, nor the
topology descriptor, nor the model placement. The embedding records only that
setup has completed. -/
def strategySetupBase (s : SingleDeviceStrategy) : SingleDeviceStrategy :=
  { s with setup_called := true }

/-- `setup(trainer)`: `self.model_to_device()` then `super().setup(trainer)`.
An exception from `model_to_device` propagates. -/
def setup (s : SingleDeviceStrategy) : Except StrategyError SingleDeviceStrategy :=
  (s.model_to_device).map strategySetupBase

/-- `is_global_zero` property: `return True`. -/
def is_global_zero (s : SingleDeviceStrategy) : Bool := true

/-- `barrier(*args, **kwargs)`: the body is `pass`; it returns `None`
(embedded as `Unit`) and writes no field of the state. -/
def barrier (s : SingleDeviceStrategy) (args : β) (kwargs : γ) :
    SingleDeviceStrategy × Unit :=
  (s, ())

/-- `broadcast(obj, src=0)`: the body is `return obj`. -/
def broadcast (s : SingleDeviceStrategy) (obj : α) (src : Nat) : α := obj

/-- Modelled from the spec: the base lifecycle hook `Strategy.teardown`
(defined in `pytorch_lightning/strategies/strategy.py`, not part of this
excerpt) releases non-model device-resident state owned by the injected
collaborators; per the spec it alters neither the device, nor the topology
descriptor, nor the placement of the model. -/
def strategyTeardownBase (s : SingleDeviceStrategy) : SingleDeviceStrategy := s

/-- `teardown()`: `super().teardown()`, then, only when `self.on_gpu`,
`self.lightning_module.cpu()` followed by `torch.cuda.empty_cache()`.
Dereferencing an absent model raises. -/
def teardown (s : SingleDeviceStrategy) :
    Except StrategyError SingleDeviceStrategy :=
  let s1 := strategyTeardownBase s
  if s1.on_gpu then
    match s1.model_device with
    | none => Except.error StrategyError.noModelAttached
    | some _ =>
        Except.ok { s1 with model_device := some cpuDevice, cuda_cache_empty := true }
  else
    Except.ok s1

/-- One invocation of a strategy operation, for reasoning about arbitrary
call sequences. `α` is the type of the tensor or object payload handed to the
value-level collectives. -/
inductive Op (α : Type)
  | reduceOp (v : α)
  | allGatherOp (v : α)
  | barrierOp
  | broadcastOp (v : α) (src : Nat)
  | modelToDeviceOp
  | setupOp
  | teardownOp

/-- Result of a fallible method as a state transition: a raised exception
propagates to the caller and leaves the attributes of the object as they
were. -/
def orUnchanged (s : SingleDeviceStrategy) :
    Except StrategyError SingleDeviceStrategy → SingleDeviceStrategy
  | Except.ok s1 => s1
  | Except.error _ => s

/-- Effect of one operation on the strategy state. `reduce`, `all_gather`
and `broadcast` return values and write no attribute, so the state passes
through unchanged; `barrier` returns its unchanged state component; the
lifecycle operations thread their updated state. -/
def applyOp (s : SingleDeviceStrategy) : Op α → SingleDeviceStrategy
  | Op.reduceOp _ => s
  | Op.allGatherOp _ => s
  | Op.barrierOp => (s.barrier () ()).1
  | Op.broadcastOp _ _ => s
  | Op.modelToDeviceOp => orUnchanged s s.model_to_device
  | Op.setupOp => orUnchanged s s.setup
  | Op.teardownOp => orUnchanged s s.teardown

/-- State after a sequence of operations. -/
def run (s : SingleDeviceStrategy) (ops : List (Op α)) : SingleDeviceStrategy :=
  ops.foldl applyOp s

/-- A concrete CUDA device. -/
def cudaDevice0 : TorchDevice := { type := DeviceType.cuda, index := some 0 }

/-- A concrete XLA device: an accelerator that is not a CUDA device. -/
def xlaDevice0 : TorchDevice := { type := DeviceType.xla, index := some 0 }

/-- A freshly constructed strategy on which `setup` was never invoked. -/
def freshStrategy : SingleDeviceStrategy :=
  init cudaDevice0 (some cpuDevice) true false

/-- A strategy whose root device is the XLA accelerator, the accelerator
runtime available, with the model resident on that device. -/
def xlaResidentStrategy : SingleDeviceStrategy :=
  { device := xlaDevice0
    global_rank := 0
    local_rank := 0
    world_size := 1
    model_device := some xlaDevice0
    cuda_available := true
    xla_available := true
    cuda_cache_empty := false
    setup_called := true }

/-- A strategy whose root device is the CUDA accelerator, the CUDA runtime
available, with the model resident on that device. -/
def cudaResidentStrategy : SingleDeviceStrategy :=
  { device := cudaDevice0
    global_rank := 0
    local_rank := 0
    world_size := 1
    model_device := some cudaDevice0
    cuda_available := true
    xla_available := false
    cuda_cache_empty := false
    setup_called := true }

/-- Every single operation preserves the three topology fields. -/
theorem applyOp_preserves_topology (s : SingleDeviceStrategy) (o : Op α) :
    (applyOp s o).global_rank = s.global_rank ∧
    (applyOp s o).local_rank = s.local_rank ∧
    (applyOp s o).world_size = s.world_size := by
  cases o with
  | reduceOp v => exact ⟨rfl, rfl, rfl⟩
  | allGatherOp v => exact ⟨rfl, rfl, rfl⟩
  | barrierOp => exact ⟨rfl, rfl, rfl⟩
  | broadcastOp v src => exact ⟨rfl, rfl, rfl⟩
  | modelToDeviceOp =>
      cases hm : s.model_device <;>
        simp [applyOp, orUnchanged, model_to_device, hm]
  | setupOp =>
      cases hm : s.model_device <;>
        simp [applyOp, orUnchanged, setup, model_to_device, strategySetupBase,
          Except.map, hm]
  | teardownOp =>
      by_cases hg : s.on_gpu
      · cases hm : s.model_device <;>
          simp [applyOp, orUnchanged, teardown, strategyTeardownBase, hg, hm]
      · simp [applyOp, orUnchanged, teardown, strategyTeardownBase, hg]

/-- Any sequence of operations preserves the three topology fields. -/
theorem run_preserves_topology (ops : List (Op α)) (s : SingleDeviceStrategy) :
    (run s ops).global_rank = s.global_rank ∧
    (run s ops).local_rank = s.local_rank ∧
    (run s ops).world_size = s.world_size := by
  induction ops generalizing s with
  | nil => exact ⟨rfl, rfl, rfl⟩
  | cons o rest ih =>
      have hstep := applyOp_preserves_topology s o
      have hrest := ih (applyOp s o)
      exact ⟨hrest.1.trans hstep.1, hrest.2.1.trans hstep.2.1,
        hrest.2.2.trans hstep.2.2⟩

/-- Claim C1: for the single-device strategy, `reduce(v, op, ...)` returns
its input `v` unchanged (and raises nothing) for every input value, every
reduction operator, and any extra positional or keyword arguments. -/
theorem reduce_returns_input_unchanged (s : SingleDeviceStrategy) (v : α)
    (args : β) (kwargs : γ) :
    s.reduce v args kwargs = Except.ok v := rfl

/-- Claim C2: after construction, `global_rank = 0`, `local_rank = 0` and
`world_size = 1` hold, and no sequence of calls to `reduce`, `all_gather`,
`barrier`, `broadcast`, `model_to_device`, `setup` or `teardown` changes
these three values. -/
theorem topology_invariant_under_all_operations (device : TorchDevice)
    (md : Option TorchDevice) (ca xa : Bool) (ops : List (Op α)) :
    (run (init device md ca xa) ops).global_rank = 0 ∧
    (run (init device md ca xa) ops).local_rank = 0 ∧
    (run (init device md ca xa) ops).world_size = 1 :=
  run_preserves_topology ops (init device md ca xa)

/-- Claim C3, counterexample: on a strategy whose root device is the XLA
accelerator (a non-CPU device, runtime available) with the model resident on
it, `teardown` raises nothing but returns the state unchanged: the model
stays on the accelerator instead of moving to host memory, and the cache
flag is not released. This refutes the claim that teardown relocates the
model for every non-CPU accelerator device. -/
theorem teardown_accelerator_counterexample :
    xlaResidentStrategy.device.type ≠ DeviceType.cpu ∧
    xlaResidentStrategy.model_device = some xlaResidentStrategy.device ∧
    xlaResidentStrategy.teardown = Except.ok xlaResidentStrategy ∧
    xlaResidentStrategy.model_device ≠ some cpuDevice ∧
    xlaResidentStrategy.cuda_cache_empty = false :=
  ⟨by decide, rfl, rfl, by decide, rfl⟩

/-- Claim C3, amended: if the root device is a CUDA device, the CUDA runtime
is available, and the model is resident on that device, then after
`teardown()` the model resides on host memory and the device cache pool is
released, and calling `teardown()` a second time raises nothing. -/
theorem teardown_cuda_relocates_and_releases (s : SingleDeviceStrategy)
    (h1 : s.device.type = DeviceType.cuda) (h2 : s.cuda_available = true)
    (h3 : s.model_device = some s.device) :
    ∃ s1, s.teardown = Except.ok s1 ∧ s1.model_device = some cpuDevice ∧
      s1.cuda_cache_empty = true ∧ ∃ s2, s1.teardown = Except.ok s2 := by
  refine ⟨{ s with model_device := some cpuDevice, cuda_cache_empty := true },
    ?_, rfl, rfl,
    ⟨{ s with model_device := some cpuDevice, cuda_cache_empty := true }, ?_⟩⟩
  · simp [teardown, strategyTeardownBase, on_gpu, root_device, h1, h2, h3]
  · simp [teardown, strategyTeardownBase, on_gpu, root_device, h1, h2]

/-- Claim C3, witness: the amended theorem applied to the concrete strategy
on cuda device 0 with the model resident there. -/
theorem teardown_cuda_relocates_and_releases_witness :
    (cudaResidentStrategy.device.type = DeviceType.cuda ∧
      cudaResidentStrategy.cuda_available = true ∧
      cudaResidentStrategy.model_device = some cudaResidentStrategy.device) ∧
    (∃ s1, cudaResidentStrategy.teardown = Except.ok s1 ∧
      s1.model_device = some cpuDevice ∧ s1.cuda_cache_empty = true ∧
      ∃ s2, s1.teardown = Except.ok s2) :=
  ⟨⟨rfl, rfl, rfl⟩,
    teardown_cuda_relocates_and_releases cudaResidentStrategy rfl rfl rfl⟩

/-- Claim C4, counterexample: on a freshly constructed strategy on which
`setup` was never invoked, `reduce` signals no error at all: it silently
returns its input. This refutes the claim that invoking `reduce` before
`setup` signals a lifecycle-violation error. -/
theorem reduce_before_setup_counterexample :
    freshStrategy.setup_called = false ∧
    freshStrategy.reduce (42 : Nat) () () = Except.ok 42 :=
  ⟨rfl, rfl⟩

/-- Claim C4, amended: invoking `reduce` before `setup` performs no
lifecycle check: it silently returns its input unchanged, with no error
signalled to the caller. -/
theorem reduce_before_setup_is_silent_identity (s : SingleDeviceStrategy)
    (v : α) (h : s.setup_called = false) :
    s.reduce v () () = Except.ok v := rfl

/-- Claim C4, witness: the amended theorem applied to the freshly
constructed strategy. -/
theorem reduce_before_setup_is_silent_identity_witness :
    freshStrategy.setup_called = false ∧
    freshStrategy.reduce (7 : Nat) () () = Except.ok 7 :=
  ⟨rfl, reduce_before_setup_is_silent_identity freshStrategy 7 rfl⟩

/-- Claim C5: `all_gather(t, group, sync_grads)` returns the input tensor
unchanged for every tensor, every group argument, and both values of
`sync_grads`. -/
theorem all_gather_returns_input_unchanged (s : SingleDeviceStrategy)
    (t : α) (group : Option β) (sync_grads : Bool) :
    s.all_gather t group sync_grads = t := rfl

/-- Claim C6: `broadcast(obj, src)` returns the input object unchanged for
every object and every source rank; the result does not depend on `src`. -/
theorem broadcast_returns_input_unchanged (s : SingleDeviceStrategy)
    (obj : α) (src : Nat) :
    s.broadcast obj src = obj := rfl

/-- Claim C7: `is_global_zero` returns `true` on every call, regardless of
any prior sequence of operations performed on the strategy. -/
theorem is_global_zero_always_true (device : TorchDevice)
    (md : Option TorchDevice) (ca xa : Bool) (ops : List (Op α)) :
    is_global_zero (run (init device md ca xa) ops) = true := rfl

/-- Claim C8: `barrier(*args, **kwargs)` is a no-op for any arguments: it
returns no value (the `None` result, embedded as `Unit`) and leaves every
field of the strategy state unchanged. -/
theorem barrier_is_noop (s : SingleDeviceStrategy) (args : β) (kwargs : γ) :
    s.barrier args kwargs = (s, ()) := rfl

/-- Claim C9: `model_to_device()` is idempotent: with a model bound, one
call relocates the model onto the root device without error, and a second
call returns the exact same state without error. -/
theorem model_to_device_idempotent (s : SingleDeviceStrategy)
    (h : s.model_device.isSome = true) :
    ∃ s1, s.model_to_device = Except.ok s1 ∧ s1.model_to_device = Except.ok s1 := by
  cases hm : s.model_device with
  | none => rw [hm] at h; cases h
  | some d =>
      refine ⟨{ s with model_device := some s.root_device }, ?_, ?_⟩
      · simp [model_to_device, hm]
      · simp [model_to_device, root_device]

/-- Claim C9, witness: the idempotence theorem applied to the freshly
constructed strategy, which has a model bound. -/
theorem model_to_device_idempotent_witness :
    freshStrategy.model_device.isSome = true ∧
    ∃ s1, freshStrategy.model_to_device = Except.ok s1 ∧
      s1.model_to_device = Except.ok s1 :=
  ⟨rfl, model_to_device_idempotent freshStrategy rfl⟩

/-- Claim C10: with a model bound, `teardown` relocates the model to host
and releases the device cache exactly when `on_gpu` holds, i.e. when the
root device type is cuda and the CUDA runtime reports available; whenever
`on_gpu` is false (any other device, or cuda without an available runtime)
`teardown` changes nothing: no relocation and no cache release. -/
theorem teardown_exactly_when_on_gpu (s : SingleDeviceStrategy)
    (d : TorchDevice) (hm : s.model_device = some d) :
    (s.on_gpu = true ↔ s.device.type = DeviceType.cuda ∧ s.cuda_available = true) ∧
    (s.on_gpu = true →
      s.teardown =
        Except.ok { s with model_device := some cpuDevice, cuda_cache_empty := true }) ∧
    (s.on_gpu = false → s.teardown = Except.ok s) := by
  refine ⟨?_, ?_, ?_⟩
  · simp [on_gpu, root_device]
  · intro hg
    simp [teardown, strategyTeardownBase, hg, hm]
  · intro hg
    simp [teardown, strategyTeardownBase, hg]

/-- Claim C10, witness: the characterization applied to the concrete
strategy on cuda device 0 with the model resident there, on which `on_gpu`
holds and teardown relocates and releases. -/
theorem teardown_exactly_when_on_gpu_witness :
    cudaResidentStrategy.model_device = some cudaDevice0 ∧
    (cudaResidentStrategy.on_gpu = true ∧
      cudaResidentStrategy.teardown =
        Except.ok { cudaResidentStrategy with
          model_device := some cpuDevice, cuda_cache_empty := true }) :=
  ⟨rfl,
    ⟨rfl,
      (teardown_exactly_when_on_gpu cudaResidentStrategy cudaDevice0 rfl).2.1 rfl⟩⟩

end SingleDeviceStrategy
